import Mathlib

/-!
Shallow embedding of `felt/gui/authorization_manager.py` (Felt QGIS plugin):
the `AuthorizationManager` class, its token store helpers and the
event-driven authorization state machine.

Modelling conventions:
* `QDate` is modelled as `Int` (a day number); `addDays` is integer addition
  and date comparison is integer comparison.  The `yyyy-MM-dd` string
  round-trip performed by the settings backend is modelled as the identity on
  the day number (it is injective for the dates the code can produce).
* The two platform storage backends (macOS `QgsSettings` and the QGIS auth
  manager) behave identically up to where data lives; both map an absent or
  empty stored string to "no value", which we model with `Option`.
* Qt signal emissions are recorded in an `emitted` log; callback objects are
  opaque and identified by `Nat` ids, and invoking a callback is recorded by
  appending its id to the `invoked` log.
* `QNetworkReply` handles are identified by consecutive `Nat` ids
  (`next_reply` is the fresh-id source for `API_CLIENT.user()`).
* The modal `AuthorizeDialog.exec_()` result is an explicit `Bool` input
  consumed at the point the dialog is shown; every dialog presentation is
  counted in `dialogs_shown`.
* A Python `assert` failure (`AssertionError` escaping to the caller) is
  modelled with `Except.error`.
* `sip.isdeleted` liveness probes concern the host destroying Qt objects,
  which is outside this model: objects are never deleted underneath us.
-/

namespace Felt

/-- The `AuthState` enum from `felt/core`. -/
inductive AuthState
  | NotAuthorized
  | Authorizing
  | Authorized
deriving DecidableEq, Repr

/-- The persisted credential settings: `felt_auth_id` (the token) and
`felt_auth_expiry` (the stored `yyyy-MM-dd` expiry date, modelled as a day
number).  `none` models an absent setting. -/
structure TokenStore where
  token : Option String
  expiry : Option Int
deriving DecidableEq, Repr

/-- `AuthorizationManager.remove_api_token`: removes the stored token setting
(`felt/token` resp. `AUTH_CONFIG_ID`).  Note the expiry setting is not
removed by this function in the source. -/
def remove_api_token (st : TokenStore) : TokenStore :=
  { st with token := none }

/-- `AuthorizationManager.store_api_token`: stores the token and an absolute
expiry day computed as `currentDate().addDays(int(expiry / 60 / 60 / 24))`;
always returns `True`. -/
def store_api_token (st : TokenStore) (token : String) (expiry : Nat)
    (today : Int) : TokenStore × Bool :=
  let expiry_day : Int := today + ((expiry / 60 / 60 / 24 : Nat) : Int)
  ({ st with token := some token, expiry := some expiry_day }, true)

/-- `AuthorizationManager.retrieve_api_token`: both platform branches yield
`None` for an absent or empty stored string; then, if an expiry date is
stored and `token_expiry_date <= QDate.currentDate()`, the token is dropped,
and if no expiry date is stored the token is dropped as well. -/
def retrieve_api_token (st : TokenStore) (today : Int) : Option String :=
  let api_token : Option String :=
    match st.token with
    | some t => if t = "" then none else some t
    | none => none
  match st.expiry with
  | some token_expiry_date =>
      if token_expiry_date ≤ today then none else api_token
  | none => none

/-- Signals emitted by `AuthorizationManager`. -/
inductive Signal
  | authorized
  | authorization_failed
  | status_changed (s : AuthState)
deriving DecidableEq, Repr

/-- The data carried by a finished `QNetworkReply` for the profile fetch:
the optional HTTP status attribute, whether `error() != NoError`, and the
response body (`User.from_json` is modelled as the identity on the body). -/
structure ReplyData where
  http_status : Option Nat
  has_error : Bool
  body : String
deriving DecidableEq, Repr

/-- The mutable state of an `AuthorizationManager` instance, together with
the collaborator state it drives: the shared `API_CLIENT` token, the
persisted `TokenStore`, and observation logs for signal emissions, callback
invocations and dialog presentations. -/
structure MgrState where
  status : AuthState
  workflow : Bool
  oauth_close_timer : Bool
  queued_callbacks : List Nat
  user : Option String
  user_reply : Option Nat
  next_reply : Nat
  client_token : Option String
  store : TokenStore
  login_text : String
  login_enabled : Bool
  authorizing_message : Bool
  failed_message : Bool
  invoked : List Nat
  emitted : List Signal
  dialogs_shown : Nat
deriving DecidableEq, Repr

/-- The state built by `AuthorizationManager.__init__` (with an empty
credential store). -/
def initState : MgrState :=
  { status := AuthState.NotAuthorized
    workflow := false
    oauth_close_timer := false
    queued_callbacks := []
    user := none
    user_reply := none
    next_reply := 0
    client_token := none
    store := { token := none, expiry := none }
    login_text := "Sign In…"
    login_enabled := true
    authorizing_message := false
    failed_message := false
    invoked := []
    emitted := []
    dialogs_shown := 0 }

/-- `AuthorizationManager._set_status`: no-op when the status is unchanged,
otherwise records the new status, emits `status_changed`, and updates the
login action and cached user per the new state. -/
def set_status (s : MgrState) (status : AuthState) : MgrState :=
  if s.status = status then s
  else
    let s := { s with status := status,
                      emitted := s.emitted ++ [Signal.status_changed status] }
    match status with
    | AuthState.NotAuthorized =>
        { s with login_text := "Sign In…", login_enabled := true,
                 user := none }
    | AuthState.Authorizing =>
        { s with login_text := "Authorizing…", login_enabled := false,
                 user := none }
    | AuthState.Authorized =>
        { s with login_text := "Log Out", login_enabled := true }

/-- `AuthorizationManager.is_authorized`. -/
def is_authorized (s : MgrState) : Bool :=
  s.status = AuthState.Authorized

/-- `AuthorizationManager._cleanup_messages`: pops any authorizing /
authorization-failed message bar items. -/
def cleanup_messages (s : MgrState) : MgrState :=
  { s with authorizing_message := false, failed_message := false }

/-- `AuthorizationManager.deauthorize`: sets status `NotAuthorized`, clears
the shared client token and removes the stored API token. -/
def deauthorize (s : MgrState) : MgrState :=
  let s := set_status s AuthState.NotAuthorized
  { s with client_token := none, store := remove_api_token s.store }

/-- `AuthorizationManager._clean_workflow`: if a workflow is live, starts the
single-shot 1 s close timer (the workflow handle itself is only released
later, in `_close_auth_server`). -/
def clean_workflow (s : MgrState) : MgrState :=
  if s.workflow then { s with oauth_close_timer := true } else s

/-- `AuthorizationManager._close_auth_server`: releases the close timer and
the workflow handle. -/
def close_auth_server (s : MgrState) : MgrState :=
  { s with oauth_close_timer := false, workflow := false }

/-- `AuthorizationManager.start_authorization_workflow`: `assert not
self._workflow` (an `AssertionError` is modelled as `Except.error`), then
creates the workflow, sets status `Authorizing`, pushes the authorizing
message and starts the workflow. -/
def start_authorization_workflow (s : MgrState) : Except String MgrState :=
  if s.workflow then Except.error "assert not self._workflow"
  else
    let s := cleanup_messages s
    let s := { s with workflow := true }
    let s := set_status s AuthState.Authorizing
    Except.ok { s with authorizing_message := true }

/-- `AuthorizationManager.show_authorization_dialog`: presents the modal
`AuthorizeDialog`; on accept starts the workflow, on cancel clears the
callback queue. -/
def show_authorization_dialog (s : MgrState) (accept : Bool) :
    Except String MgrState :=
  let s := { s with dialogs_shown := s.dialogs_shown + 1 }
  if accept then start_authorization_workflow s
  else Except.ok { s with queued_callbacks := [] }

/-- `AuthorizationManager.attempt_authorize`: if a valid stored token exists
(`retrieve_api_token` never returns an empty string, so the Python
truthiness test coincides with the `Option` match), authorizes synchronously
and issues the profile fetch; otherwise shows the authorization dialog. -/
def attempt_authorize (s : MgrState) (today : Int) (dialogAccept : Bool) :
    Except String MgrState :=
  match retrieve_api_token s.store today with
  | some previous_token =>
      let s := cleanup_messages s
      let s := set_status s AuthState.Authorized
      let s := { s with client_token := some previous_token,
                        emitted := s.emitted ++ [Signal.authorized] }
      Except.ok { s with user_reply := some s.next_reply,
                         next_reply := s.next_reply + 1 }
  | none => show_authorization_dialog s dialogAccept

/-- `AuthorizationManager.authorization_callback`: when already authorized,
invokes the callback and returns `True`; otherwise appends it to the queue,
calls `attempt_authorize` and returns `False`. -/
def authorization_callback (s : MgrState) (cb : Nat) (today : Int)
    (dialogAccept : Bool) : Except String (MgrState × Bool) :=
  if s.status = AuthState.Authorized then
    Except.ok ({ s with invoked := s.invoked ++ [cb] }, true)
  else
    let s := { s with queued_callbacks := s.queued_callbacks ++ [cb] }
    match attempt_authorize s today dialogAccept with
    | Except.ok s => Except.ok (s, false)
    | Except.error e => Except.error e

/-- `AuthorizationManager._authorization_error_occurred`: clears the queue,
pops messages, schedules workflow teardown, sets `NotAuthorized`, pushes the
failure message (with its retry button), clears the queue again and emits
`authorization_failed`. -/
def authorization_error_occurred (s : MgrState) : MgrState :=
  let s := { s with queued_callbacks := [] }
  let s := cleanup_messages s
  let s := clean_workflow s
  let s := set_status s AuthState.NotAuthorized
  let s := { s with failed_message := true }
  let s := { s with queued_callbacks := [] }
  { s with emitted := s.emitted ++ [Signal.authorization_failed] }

/-- `AuthorizationManager._authorization_success`: pops messages, sets
`Authorized`, configures the client token, persists the token, schedules
workflow teardown, emits `authorized` and issues the profile fetch. -/
def authorization_success (s : MgrState) (token : String) (expiry : Nat)
    (today : Int) : MgrState :=
  let s := cleanup_messages s
  let s := set_status s AuthState.Authorized
  let s := { s with client_token := some token }
  let s := { s with store := (store_api_token s.store token expiry today).1 }
  let s := clean_workflow s
  let s := { s with emitted := s.emitted ++ [Signal.authorized] }
  { s with user_reply := some s.next_reply, next_reply := s.next_reply + 1 }

/-- `AuthorizationManager._set_user_details`, invoked with the reply captured
by `partial` at connect time.  A reply that no longer matches
`self._user_reply` is discarded; a 401 triggers deauthorize + re-attempt;
any other transport error drops the reply; otherwise the user profile is
parsed and the callback queue is drained (cleared before the invocations
begin).  Callback bodies are opaque: invocation is recorded in `invoked`. -/
def set_user_details (s : MgrState) (reply : Nat) (d : ReplyData)
    (today : Int) (dialogAccept : Bool) : Except String MgrState :=
  if s.user_reply ≠ some reply then
    Except.ok s
  else if d.http_status = some 401 then
    let s := { s with user_reply := none }
    let s := deauthorize s
    attempt_authorize s today dialogAccept
  else if d.has_error then
    Except.ok { s with user_reply := none }
  else
    let callbacks := s.queued_callbacks
    let s := { s with user := some d.body, queued_callbacks := [] }
    Except.ok { s with invoked := s.invoked ++ callbacks }

/-- External events driving the manager: a public `authorization_callback`
request (with the dialog answer the user would give if the dialog is
shown), the workflow signals, a finished profile reply, a sign-out, and the
close-timer timeout. -/
inductive Event
  | reqAuth (cb : Nat) (dialogAccept : Bool)
  | workflowError
  | workflowSuccess (token : String) (expiry : Nat)
  | replyFinished (reply : Nat) (d : ReplyData) (dialogAccept : Bool)
  | signOut
  | closeTimer
deriving DecidableEq, Repr

/-- One event step of the manager. -/
def step (s : MgrState) (today : Int) : Event → Except String MgrState
  | Event.reqAuth cb accept =>
      match authorization_callback s cb today accept with
      | Except.ok p => Except.ok p.1
      | Except.error e => Except.error e
  | Event.workflowError => Except.ok (authorization_error_occurred s)
  | Event.workflowSuccess t e => Except.ok (authorization_success s t e today)
  | Event.replyFinished r d accept => set_user_details s r d today accept
  | Event.signOut => Except.ok (deauthorize s)
  | Event.closeTimer => Except.ok (close_auth_server s)

/-- Runs a sequence of events; stops at the first assertion failure. -/
def run (s : MgrState) (today : Int) : List Event → Except String MgrState
  | [] => Except.ok s
  | e :: es =>
      match step s today e with
      | Except.ok s => run s today es
      | Except.error m => Except.error m

/-- Projection: status of a non-failed result. -/
def resStatus : Except String MgrState → Option AuthState
  | Except.ok s => some s.status
  | Except.error _ => none

/-- Projection: callback queue of a non-failed result. -/
def resQueue : Except String MgrState → Option (List Nat)
  | Except.ok s => some s.queued_callbacks
  | Except.error _ => none

/-- Projection: invocation log of a non-failed result. -/
def resInvoked : Except String MgrState → Option (List Nat)
  | Except.ok s => some s.invoked
  | Except.error _ => none

/-- Projection: cached user profile of a non-failed result. -/
def resUser : Except String MgrState → Option (Option String)
  | Except.ok s => some s.user
  | Except.error _ => none

/-- Projection: shared client token of a non-failed result. -/
def resClientToken : Except String MgrState → Option (Option String)
  | Except.ok s => some s.client_token
  | Except.error _ => none

/-- Projection: current profile reply handle of a non-failed result. -/
def resUserReply : Except String MgrState → Option (Option Nat)
  | Except.ok s => some s.user_reply
  | Except.error _ => none

/-- Projection: emission log of a non-failed result. -/
def resEmitted : Except String MgrState → Option (List Signal)
  | Except.ok s => some s.emitted
  | Except.error _ => none

/-- Projection: workflow liveness of a non-failed result. -/
def resWorkflow : Except String MgrState → Option Bool
  | Except.ok s => some s.workflow
  | Except.error _ => none

/-- Projection: dialog presentation count of a non-failed result. -/
def resDialogs : Except String MgrState → Option Nat
  | Except.ok s => some s.dialogs_shown
  | Except.error _ => none

/-- Projection: manager state of a non-failed `authorization_callback`. -/
def cbState : Except String (MgrState × Bool) → Option MgrState
  | Except.ok p => some p.1
  | Except.error _ => none

/-- Projection: return value of a non-failed `authorization_callback`. -/
def cbRet : Except String (MgrState × Bool) → Option Bool
  | Except.ok p => some p.2
  | Except.error _ => none

/-- A sample manager state awaiting profile reply 0, with two queued
callbacks and one earlier invocation on record. -/
def drainSample : MgrState :=
  { initState with
    user_reply := some 0
    queued_callbacks := [1, 2]
    invoked := [7] }

/-- A sample authorized session: a cached profile, a configured client
token, one queued callback and an in-flight profile reply 3. -/
def signedInSample : MgrState :=
  { initState with
    status := AuthState.Authorized
    user := some "OLD"
    client_token := some "tok"
    user_reply := some 3
    queued_callbacks := [4] }

/-- Claim C1 as stated is false: `store_api_token` computes the expiry day as
`today + int(3600 / 86400) = today`, and `retrieve_api_token` treats an
expiry day `≤ today` as expired, so an immediate `retrieve` after storing
with `expiry_seconds = 3600` returns `none`, not the token. -/
theorem c1_counterexample :
    retrieve_api_token
      (store_api_token { token := none, expiry := none } "abc" 3600 0).1 0 =
      none := by
  rfl

/-- Claim C1 (amended): storing `"abc"` with an `expiry_seconds` worth at
least one full day and immediately calling retrieve on the same day returns
`"abc"`; on any day on or after the computed expiry day
(`today + e / 86400` days), retrieve returns `none` without any `remove`. -/
theorem c1_theorem (st : TokenStore) (today later : Int) (e : Nat)
    (h : 1 ≤ e / 60 / 60 / 24)
    (hl : today + ((e / 60 / 60 / 24 : Nat) : Int) ≤ later) :
    retrieve_api_token (store_api_token st "abc" e today).1 today =
      some "abc" ∧
    retrieve_api_token (store_api_token st "abc" e today).1 later = none := by
  have hst : (store_api_token st "abc" e today).1 =
      { token := some "abc",
        expiry := some (today + ((e / 60 / 60 / 24 : Nat) : Int)) } := rfl
  have hret : ∀ t : Int,
      retrieve_api_token
        { token := some "abc",
          expiry := some (today + ((e / 60 / 60 / 24 : Nat) : Int)) } t =
      if today + ((e / 60 / 60 / 24 : Nat) : Int) ≤ t then none
      else some "abc" := by
    intro t
    rfl
  rw [hst, hret, hret]
  have hlt : ¬ (today + ((e / 60 / 60 / 24 : Nat) : Int) ≤ today) := by
    omega
  rw [if_neg hlt, if_pos hl]
  exact ⟨rfl, rfl⟩

/-- Witness for `c1_theorem` at `e = 172800` seconds (two days). -/
theorem c1_witness :
    retrieve_api_token
      (store_api_token { token := none, expiry := none } "abc" 172800 0).1 0 =
      some "abc" ∧
    retrieve_api_token
      (store_api_token { token := none, expiry := none } "abc" 172800 0).1 2 =
      none :=
  c1_theorem { token := none, expiry := none } 0 2 172800 (by decide)
    (by decide)

/-- Claim C2 fails on the code: from the initial state, a first
`authorization_callback` with the dialog accepted starts the workflow
(state `Authorizing`), and a second `authorization_callback` issued while
`Authorizing` does not merely enqueue — it re-enters `attempt_authorize`,
re-presents the sign-in dialog, and on accept reaches
`start_authorization_workflow`, whose `assert not self._workflow` fails. -/
theorem c2_assert_failure :
    run initState 0 [Event.reqAuth 1 true, Event.reqAuth 2 true] =
      Except.error "assert not self._workflow" := by
  rfl

/-- Claim C5: retrieve returns a stored non-empty token exactly when an
expiry date is present and strictly later than the current date; an absent,
current, or past expiry date yields `none`. -/
theorem c5_theorem (st : TokenStore) (today : Int) :
    (∀ t, st.token = some t → ¬ t = "" →
      (retrieve_api_token st today = some t ↔
        ∃ d, st.expiry = some d ∧ today < d)) ∧
    (∀ d, st.expiry = some d → d ≤ today →
      retrieve_api_token st today = none) ∧
    (st.expiry = none → retrieve_api_token st today = none) := by
  obtain ⟨tok, exp⟩ := st
  refine ⟨?_, ?_, ?_⟩
  · intro t htok ht
    subst htok
    cases exp with
    | none => simp [retrieve_api_token]
    | some d =>
        by_cases hd : d ≤ today
        · simp [retrieve_api_token, hd]
        · simp [retrieve_api_token, hd, ht]
          omega
  · intro d hexp hd
    subst hexp
    simp [retrieve_api_token, hd]
  · intro hexp
    subst hexp
    simp [retrieve_api_token]

/-- Witness for `c5_theorem`: a token with expiry day 5 is returned on day 3
and rejected on day 5. -/
theorem c5_witness :
    retrieve_api_token { token := some "abc", expiry := some 5 } 3 =
      some "abc" ∧
    retrieve_api_token { token := some "abc", expiry := some 5 } 5 = none :=
  ⟨((c5_theorem { token := some "abc", expiry := some 5 } 3).1 "abc" rfl
      (by decide)).2 ⟨5, rfl, by decide⟩,
    (c5_theorem { token := some "abc", expiry := some 5 } 5).2.1 5 rfl
      (by decide)⟩

/-- Claim C6's never-throws part fails on the code: after a workflow error
the workflow handle is only released by the 1-second close timer, so an
`authorization_callback` issued before the timer fires (state
`NotAuthorized`), with the dialog accepted, hits
`assert not self._workflow` and the `AssertionError` escapes to the caller
of `authorization_callback`. -/
theorem c6_throws :
    run initState 0
        [Event.reqAuth 1 true, Event.workflowError, Event.reqAuth 2 true] =
      Except.error "assert not self._workflow" := by
  rfl

/-- Claim C9: `start_authorization_workflow` rejects a live workflow via its
assertion (never queues or ignores the call), and when no workflow handle is
held it proceeds: the workflow is created and the status becomes
`Authorizing`. -/
theorem c9_theorem (s : MgrState) :
    (s.workflow = true →
      start_authorization_workflow s =
        Except.error "assert not self._workflow") ∧
    (s.workflow = false →
      resWorkflow (start_authorization_workflow s) = some true ∧
      resStatus (start_authorization_workflow s) =
        some AuthState.Authorizing) := by
  constructor
  · intro h
    simp [start_authorization_workflow, h]
  · intro h
    by_cases hs : s.status = AuthState.Authorizing
    · constructor <;>
        simp [start_authorization_workflow, h, cleanup_messages, set_status,
          hs, resWorkflow, resStatus]
    · constructor <;>
        simp [start_authorization_workflow, h, cleanup_messages, set_status,
          hs, resWorkflow, resStatus]

/-- Witness for `c9_theorem`: the precondition violation at a live-workflow
state and the successful start from the initial state. -/
theorem c9_witness :
    start_authorization_workflow { initState with workflow := true } =
      Except.error "assert not self._workflow" ∧
    (resWorkflow (start_authorization_workflow initState) = some true ∧
     resStatus (start_authorization_workflow initState) =
       some AuthState.Authorizing) :=
  ⟨(c9_theorem { initState with workflow := true }).1 rfl,
   (c9_theorem initState).2 rfl⟩

/-- Claim C10: `deauthorize` leaves the callback queue, the in-flight
profile-reply handle, the invocation log, the workflow handle, the close
timer, the reply counter, the dialog count and the message-bar items
unchanged; it sets the status to `NotAuthorized`, clears the client token
and the persisted token; and when already `NotAuthorized` it emits no
`status_changed` event (the emission log is unchanged). -/
theorem c10_theorem (s : MgrState) :
    (s.status = AuthState.NotAuthorized →
      (deauthorize s).emitted = s.emitted) ∧
    (deauthorize s).queued_callbacks = s.queued_callbacks ∧
    (deauthorize s).user_reply = s.user_reply ∧
    (deauthorize s).invoked = s.invoked ∧
    (deauthorize s).workflow = s.workflow ∧
    (deauthorize s).oauth_close_timer = s.oauth_close_timer ∧
    (deauthorize s).next_reply = s.next_reply ∧
    (deauthorize s).dialogs_shown = s.dialogs_shown ∧
    (deauthorize s).authorizing_message = s.authorizing_message ∧
    (deauthorize s).failed_message = s.failed_message ∧
    (deauthorize s).status = AuthState.NotAuthorized ∧
    (deauthorize s).client_token = none ∧
    (deauthorize s).store.token = none := by
  unfold deauthorize set_status remove_api_token
  by_cases h : s.status = AuthState.NotAuthorized <;> simp [h]

/-- Witness for `c10_theorem` at the initial (already `NotAuthorized`)
state. -/
theorem c10_witness :
    (deauthorize initState).emitted = [] ∧
    (deauthorize initState).queued_callbacks = [] ∧
    (deauthorize initState).user_reply = none :=
  ⟨(c10_theorem initState).1 rfl, (c10_theorem initState).2.1,
    (c10_theorem initState).2.2.1⟩

/-- Claim C3 as stated is false: here authorization succeeds (the workflow
finishes and the state is `Authorized`, with no cancellation or failure),
yet when the profile-fetch reply arrives with a transport error the queued
callback is never invoked — it stays in the queue, uninvoked. -/
theorem c3_counterexample :
    resInvoked (run initState 0 [Event.reqAuth 1 true,
        Event.workflowSuccess "tok" 172800,
        Event.replyFinished 0
          { http_status := none, has_error := true, body := "" } true]) =
      some [] ∧
    resStatus (run initState 0 [Event.reqAuth 1 true,
        Event.workflowSuccess "tok" 172800,
        Event.replyFinished 0
          { http_status := none, has_error := true, body := "" } true]) =
      some AuthState.Authorized ∧
    resQueue (run initState 0 [Event.reqAuth 1 true,
        Event.workflowSuccess "tok" 172800,
        Event.replyFinished 0
          { http_status := none, has_error := true, body := "" } true]) =
      some [1] :=
  ⟨rfl, rfl, rfl⟩

/-- Claim C3 (amended): the queued callbacks are invoked exactly once, in
enqueue order, with the queue cleared before the invocations begin, when the
profile-fetch reply for the current request arrives with non-401 status and
no transport error; and on a workflow error no callback is invoked and the
queue is cleared. -/
theorem c3_theorem (s : MgrState) (r : Nat) (d : ReplyData) (today : Int)
    (a : Bool)
    (hr : s.user_reply = some r)
    (h401 : ¬ d.http_status = some 401)
    (herr : d.has_error = false) :
    resInvoked (set_user_details s r d today a) =
      some (s.invoked ++ s.queued_callbacks) ∧
    resQueue (set_user_details s r d today a) = some [] ∧
    (authorization_error_occurred s).invoked = s.invoked ∧
    (authorization_error_occurred s).queued_callbacks = [] := by
  refine ⟨?_, ?_, ?_, ?_⟩
  · simp [set_user_details, hr, h401, herr, resInvoked]
  · simp [set_user_details, hr, h401, herr, resQueue]
  · unfold authorization_error_occurred cleanup_messages clean_workflow
      set_status
    by_cases hw : s.workflow <;>
      by_cases hn : s.status = AuthState.NotAuthorized <;> simp [hw, hn]
  · unfold authorization_error_occurred cleanup_messages clean_workflow
      set_status
    by_cases hw : s.workflow <;>
      by_cases hn : s.status = AuthState.NotAuthorized <;> simp [hw, hn]

/-- Witness for `c3_theorem`: two queued callbacks drained after one earlier
invocation, and the failure side at the same state. -/
theorem c3_witness :
    resInvoked (set_user_details drainSample 0
      { http_status := some 200, has_error := false, body := "BODY" } 0
      true) = some [7, 1, 2] ∧
    resQueue (set_user_details drainSample 0
      { http_status := some 200, has_error := false, body := "BODY" } 0
      true) = some [] ∧
    (authorization_error_occurred drainSample).invoked = [7] ∧
    (authorization_error_occurred drainSample).queued_callbacks = [] :=
  c3_theorem drainSample 0
    { http_status := some 200, has_error := false, body := "BODY" } 0 true
    rfl (by decide) rfl

/-- Claim C4 as stated is false: `deauthorize` does not clear or supersede
the in-flight profile-reply handle, so the reply issued before sign-out
still matches `self._user_reply` on arrival and is processed — it sets the
user profile and drains the queue while the state is `NotAuthorized`. -/
theorem c4_counterexample :
    resUser (run initState 0 [Event.reqAuth 1 true,
        Event.workflowSuccess "tok" 172800, Event.signOut,
        Event.replyFinished 0
          { http_status := none, has_error := false, body := "PROFILE" }
          true]) = some (some "PROFILE") ∧
    resInvoked (run initState 0 [Event.reqAuth 1 true,
        Event.workflowSuccess "tok" 172800, Event.signOut,
        Event.replyFinished 0
          { http_status := none, has_error := false, body := "PROFILE" }
          true]) = some [1] ∧
    resStatus (run initState 0 [Event.reqAuth 1 true,
        Event.workflowSuccess "tok" 172800, Event.signOut,
        Event.replyFinished 0
          { http_status := none, has_error := false, body := "PROFILE" }
          true]) = some AuthState.NotAuthorized :=
  ⟨rfl, rfl, rfl⟩

/-- Claim C4 (amended): sign-out from `Authorized` discards the cached
profile and clears the client token, but leaves the in-flight profile-reply
handle in place as the current reply; when that reply arrives with non-401
status and no transport error it is processed: the user profile is set and
the callback queue drained. -/
theorem c4_theorem (s : MgrState) (r : Nat) (d : ReplyData) (today : Int)
    (a : Bool)
    (hs : s.status = AuthState.Authorized)
    (hr : s.user_reply = some r)
    (h401 : ¬ d.http_status = some 401)
    (herr : d.has_error = false) :
    (deauthorize s).user = none ∧
    (deauthorize s).client_token = none ∧
    (deauthorize s).user_reply = some r ∧
    resUser (set_user_details (deauthorize s) r d today a) =
      some (some d.body) ∧
    resInvoked (set_user_details (deauthorize s) r d today a) =
      some (s.invoked ++ s.queued_callbacks) ∧
    resQueue (set_user_details (deauthorize s) r d today a) = some [] := by
  refine ⟨?_, ?_, ?_, ?_, ?_, ?_⟩ <;>
    simp [deauthorize, set_status, remove_api_token, set_user_details, hs,
      hr, h401, herr, resUser, resInvoked, resQueue]

/-- Witness for `c4_theorem`: an authorized session with one queued callback
and an in-flight reply, signed out before the reply arrives. -/
theorem c4_witness :
    (deauthorize signedInSample).user = none ∧
    (deauthorize signedInSample).client_token = none ∧
    (deauthorize signedInSample).user_reply = some 3 ∧
    resUser (set_user_details (deauthorize signedInSample) 3
      { http_status := none, has_error := false, body := "P" } 0 true) =
      some (some "P") ∧
    resInvoked (set_user_details (deauthorize signedInSample) 3
      { http_status := none, has_error := false, body := "P" } 0 true) =
      some [4] ∧
    resQueue (set_user_details (deauthorize signedInSample) 3
      { http_status := none, has_error := false, body := "P" } 0 true) =
      some [] :=
  c4_theorem signedInSample 3
    { http_status := none, has_error := false, body := "P" } 0 true
    rfl rfl (by decide) rfl

/-- Claim C7: when the user cancels the sign-in dialog during an
`authorization_callback` issued from `NotAuthorized` with no valid stored
token, the state remains `NotAuthorized`, the callback queue is emptied, no
callback fires, and the call returns `False`. -/
theorem c7_theorem (s : MgrState) (cb : Nat) (today : Int)
    (hs : s.status = AuthState.NotAuthorized)
    (ht : retrieve_api_token s.store today = none) :
    resStatus (step s today (Event.reqAuth cb false)) =
      some AuthState.NotAuthorized ∧
    resQueue (step s today (Event.reqAuth cb false)) = some [] ∧
    resInvoked (step s today (Event.reqAuth cb false)) = some s.invoked ∧
    cbRet (authorization_callback s cb today false) = some false := by
  refine ⟨?_, ?_, ?_, ?_⟩ <;>
    simp [step, authorization_callback, attempt_authorize,
      show_authorization_dialog, hs, ht, resStatus, resQueue, resInvoked,
      cbRet]

/-- Witness for `c7_theorem` at the initial state. -/
theorem c7_witness :
    resStatus (step initState 0 (Event.reqAuth 5 false)) =
      some AuthState.NotAuthorized ∧
    resQueue (step initState 0 (Event.reqAuth 5 false)) = some [] ∧
    resInvoked (step initState 0 (Event.reqAuth 5 false)) = some [] ∧
    cbRet (authorization_callback initState 5 0 false) = some false :=
  c7_theorem initState 5 0 rfl rfl

/-- Claim C8: with a valid stored token, `attempt_authorize` synchronously
sets the status to `Authorized`, configures the shared client with the
token, emits `status_changed Authorized` followed by `authorized`, issues
the profile fetch, and never presents the sign-in dialog. -/
theorem c8_theorem (s : MgrState) (today : Int) (tok : String) (a : Bool)
    (ht : retrieve_api_token s.store today = some tok)
    (hs : ¬ s.status = AuthState.Authorized) :
    resStatus (attempt_authorize s today a) = some AuthState.Authorized ∧
    resClientToken (attempt_authorize s today a) = some (some tok) ∧
    resEmitted (attempt_authorize s today a) =
      some (s.emitted ++ [Signal.status_changed AuthState.Authorized,
        Signal.authorized]) ∧
    resUserReply (attempt_authorize s today a) = some (some s.next_reply) ∧
    resDialogs (attempt_authorize s today a) = some s.dialogs_shown := by
  refine ⟨?_, ?_, ?_, ?_, ?_⟩ <;>
    simp [attempt_authorize, cleanup_messages, set_status, ht, hs,
      resStatus, resClientToken, resEmitted, resUserReply, resDialogs]

/-- Witness for `c8_theorem`: a stored token with expiry day 5 used on
day 0. -/
theorem c8_witness :
    resStatus (attempt_authorize
      { initState with store := { token := some "abc", expiry := some 5 } }
      0 false) = some AuthState.Authorized ∧
    resClientToken (attempt_authorize
      { initState with store := { token := some "abc", expiry := some 5 } }
      0 false) = some (some "abc") ∧
    resEmitted (attempt_authorize
      { initState with store := { token := some "abc", expiry := some 5 } }
      0 false) = some [Signal.status_changed AuthState.Authorized,
        Signal.authorized] ∧
    resUserReply (attempt_authorize
      { initState with store := { token := some "abc", expiry := some 5 } }
      0 false) = some (some 0) ∧
    resDialogs (attempt_authorize
      { initState with store := { token := some "abc", expiry := some 5 } }
      0 false) = some 0 :=
  c8_theorem
    { initState with store := { token := some "abc", expiry := some 5 } }
    0 "abc" false rfl (by decide)

end Felt
